import Mathlib

/-!
Verification of the rate-limiting utilities, reveal-on-visibility
controller, menu state machine and DOM event handlers of the portfolio
scripts (`script.js` and its sibling variant).  JavaScript timers are
modelled by explicit due times threaded through a fold over the finite
sequence of wrapper invocations; run-to-completion semantics of the
browser event loop justify processing one invocation at a time.
-/

namespace Portfolio

/-- A single invocation of a rate-limited wrapper: the millisecond time at
which it is issued, the `this` value at the call site, and the variadic
argument list `...args`, modelled as a list of naturals. -/
structure Call where
  t : Nat
  ctx : Nat
  args : List Nat
deriving DecidableEq, Repr

/-- One underlying invocation of the wrapped callback `func`: the `this`
value it receives (`none` models JavaScript `undefined`) and its argument
list. -/
structure FnCall where
  thisVal : Option Nat
  args : List Nat
deriving DecidableEq, Repr

/-- One step of the debounced wrapper (`script.js` lines 11-21, `part_000`
lines 5-15).  The wrapper state is the pending timer: `some (d, a)` means
`later` is scheduled to fire at time `d` and call `func(...a)`.  A pending
timer whose due time has been reached before the next wrapper invocation
fires first; since `later` is an arrow function performing a plain call
`func(...args)`, the fired call receives an undefined `this`.  The wrapper
body then runs `clearTimeout(timeout)` and schedules a fresh `later` at
`wait` milliseconds in the future, capturing the new arguments. -/
def debounceStep (w : Nat) (acc : List FnCall × Option (Nat × List Nat)) (c : Call) :
    List FnCall × Option (Nat × List Nat) :=
  match acc.2 with
  | some (d, b) =>
      if d ≤ c.t then (acc.1 ++ [⟨none, b⟩], some (c.t + w, c.args))
      else (acc.1, some (c.t + w, c.args))
  | none => (acc.1, some (c.t + w, c.args))

/-- The complete run of a debounced wrapper over a finite sequence of
invocations (issued at nondecreasing times): after the last invocation the
event loop runs to quiescence, so a still-pending timer fires.  Returns
the sequence of underlying calls of `func` in order. -/
def debounceRun (w : Nat) (calls : List Call) : List FnCall :=
  match calls.foldl (debounceStep w) ([], none) with
  | (log, some (_, b)) => log ++ [⟨none, b⟩]
  | (log, none) => log

/-- `chainedFromB w tprev calls` holds when the calls come at nondecreasing
times, each strictly less than `w` milliseconds after the previous one;
`tprev` is the time of the invocation immediately before `calls`. -/
def chainedFromB (w : Nat) : Nat → List Call → Bool
  | _, [] => true
  | tprev, c :: rest =>
      (decide (tprev ≤ c.t) && decide (c.t < tprev + w)) && chainedFromB w c.t rest

/-- The last invocation of the nonempty burst `c :: rest`. -/
def lastCall (c : Call) : List Call → Call
  | [] => c
  | c2 :: rest => lastCall c2 rest

/-- One step of the throttled wrapper (`script.js` lines 29-38, `part_000`
lines 17-26).  The wrapper state is the pending cooldown-reset timer:
`some d` means `inThrottle` is `true` and the scheduled
`() => inThrottle = false` fires at time `d`.  A reset timer whose due
time has been reached before the next wrapper invocation fires first.
When `inThrottle` is falsy the wrapper runs `func.apply(this, args)`
synchronously — the underlying call receives the invocation's own `this`
and arguments — and schedules the reset `limit` milliseconds ahead;
otherwise the invocation is dropped without being queued. -/
def throttleStep (L : Nat) (acc : List FnCall × Option Nat) (c : Call) :
    List FnCall × Option Nat :=
  match acc.2 with
  | some d =>
      if d ≤ c.t then (acc.1 ++ [⟨some c.ctx, c.args⟩], some (c.t + L))
      else (acc.1, some d)
  | none => (acc.1 ++ [⟨some c.ctx, c.args⟩], some (c.t + L))

/-- The complete run of a throttled wrapper over a finite sequence of
invocations issued at nondecreasing times: the sequence of underlying
calls of `func` in order. -/
def throttleRun (L : Nat) (calls : List Call) : List FnCall :=
  (calls.foldl (throttleStep L) ([], none)).1

/-- Modelled from the spec's words (§4.1 Throttle): after an accepted call
at time `lastAcc`, every invocation issued before `L` milliseconds have
elapsed is dropped, and the first invocation issued once `L` milliseconds
have elapsed is accepted and starts a new cooldown window. -/
def throttleAccepts (L lastAcc : Nat) : List Call → List Call
  | [] => []
  | c :: rest =>
      if c.t < lastAcc + L then throttleAccepts L lastAcc rest
      else c :: throttleAccepts L c.t rest

/-- Modelled from the spec's words (§4.1 Throttle): the first invocation is
accepted immediately; later ones follow the cooldown policy
`throttleAccepts`. -/
def throttlePolicy (L : Nat) : List Call → List Call
  | [] => []
  | c :: rest => c :: throttleAccepts L c.t rest

/-- The underlying call produced by an accepted throttled invocation:
`func.apply(this, args)` passes the invocation's own context and
arguments. -/
def fnCallOf (c : Call) : FnCall := ⟨some c.ctx, c.args⟩

/-- Modelled from the spec's words (§4.1 Debounce): each invocation cancels
the pending scheduled call and schedules a new one `waitMs` in the future
with the latest arguments, so an invocation's scheduled call fires exactly
when no further invocation arrives within `waitMs`; at that moment it
carries the arguments of the most recent invocation (the one that
scheduled it) and — `later` being a plain call — an undefined `this`. -/
def debouncePolicy (w : Nat) : List Call → List FnCall
  | [] => []
  | [c] => [⟨none, c.args⟩]
  | c :: c2 :: rest =>
      if c.t + w ≤ c2.t then ⟨none, c.args⟩ :: debouncePolicy w (c2 :: rest)
      else debouncePolicy w (c2 :: rest)

/-- The inline style and observation status of one element tracked by the
reveal controller (`script.js` lines 136-150 and 202-209). -/
structure RevealElem where
  opacity : String
  transform : String
  transition : String
  observed : Bool
deriving DecidableEq, Repr

/-- The state `initAnimations` puts every tracked element into: hidden
(opacity 0), offset 30px down, with the transition set, and registered
with the observer (`script.js` lines 202-209). -/
def pendingElem : RevealElem :=
  { opacity := "0", transform := "translateY(30px)",
    transition := "all 0.6s cubic-bezier(0.4, 0, 0.2, 1)", observed := true }

/-- The terminal state reached from `pendingElem` by the observer callback:
opacity 1, offset 0, unobserved. -/
def revealedElem : RevealElem :=
  { pendingElem with opacity := "1", transform := "translateY(0)", observed := false }

/-- Delivery of one IntersectionObserver entry for a single element
(`script.js` lines 141-150).  The observer only delivers entries for
elements it still observes, which the `observed` guard models; when the
entry is intersecting, the callback sets the revealed styles and calls
`unobserve` on the target. -/
def deliverEntry (isInter : Bool) (e : RevealElem) : RevealElem :=
  if e.observed then
    if isInter then { e with opacity := "1", transform := "translateY(0)", observed := false }
    else e
  else e

/-- The state of one tracked element after `initAnimations` followed by a
sequence of simulated intersection events (`true` = the element is
intersecting the viewport in that event). -/
def revealRun (evs : List Bool) : RevealElem :=
  evs.foldl (fun s b => deliverEntry b s) pendingElem

/-- `classList.add`: appends the class token when not already present. -/
def classAdd (cls : List String) (c : String) : List String :=
  if c ∈ cls then cls else cls ++ [c]

/-- `classList.remove`: deletes the class token. -/
def classRemove (cls : List String) (c : String) : List String :=
  cls.filter (fun x => x ≠ c)

/-- The class-list update performed by the body of `handleNavbarScroll`
(`script.js` lines 78-89) when it runs at scroll offset `s`. -/
def navbarScrollUpdate (cls : List String) (s : Nat) : List String :=
  if 50 < s then classAdd cls "scrolled" else classRemove cls "scrolled"

/-- The class-list update performed by the body of
`handleScrollTopVisibility` (`script.js` lines 94-100) when it runs at
scroll offset `s`. -/
def scrollTopUpdate (cls : List String) (s : Nat) : List String :=
  if 300 < s then classAdd cls "visible" else classRemove cls "visible"

/-- The body of `handleNavbarScroll` with the cached navbar lookup made
explicit: `elements.navbar.classList` is dereferenced with no null check,
so an absent navbar makes the handler throw a TypeError on its first
scroll tick instead of no-opping. -/
def handleNavbarScrollBody (navbar : Option (List String)) (s : Nat) :
    Except String (List String) :=
  match navbar with
  | none => .error "TypeError: cannot read classList of null navbar"
  | some cls => .ok (navbarScrollUpdate cls s)

/-- The body of `handleScrollTopVisibility` with the cached button lookup
made explicit: `elements.scrollTopBtn.classList` is dereferenced with no
null check. -/
def handleScrollTopBody (btn : Option (List String)) (s : Nat) :
    Except String (List String) :=
  match btn with
  | none => .error "TypeError: cannot read classList of null scrollTopBtn"
  | some cls => .ok (scrollTopUpdate cls s)

/-- The pieces of DOM state touched by the mobile-menu code: the
hamburger's `active` class, the nav menu's `active` class, the hamburger's
`aria-expanded` attribute, and `document.body.style.overflow`. -/
structure MenuState where
  hamburgerActive : Bool
  navMenuActive : Bool
  ariaExpanded : String
  bodyOverflow : String
deriving DecidableEq, Repr

/-- `toggleMobileMenu` (`script.js` lines 57-64): toggles both `active`
classes, sets `aria-expanded` to the stringified new hamburger state, and
locks body scroll exactly when the menu became active. -/
def toggleMobileMenu (s : MenuState) : MenuState :=
  let isActive := !s.hamburgerActive
  { hamburgerActive := isActive
    navMenuActive := !s.navMenuActive
    ariaExpanded := if isActive then "true" else "false"
    bodyOverflow := if isActive then "hidden" else "" }

/-- `closeMobileMenu` (`script.js` lines 66-71): removes both `active`
classes, resets `aria-expanded` to `false` and unlocks body scroll. -/
def closeMobileMenu (_ : MenuState) : MenuState :=
  { hamburgerActive := false, navMenuActive := false,
    ariaExpanded := "false", bodyOverflow := "" }

/-- `closeMobileMenu` with the element lookups made explicit.  Line 67
dereferences `elements.hamburger.classList` first, then line 68
dereferences `elements.navMenu.classList`, neither behind a null check:
the function throws a TypeError when the hamburger is absent, or (with
the hamburger present) when the nav menu is absent. -/
def closeMobileMenuBody (hamburgerPresent navMenuPresent : Bool) (s : MenuState) :
    Except String MenuState :=
  if hamburgerPresent = false then
    .error "TypeError: cannot read classList of null hamburger"
  else if navMenuPresent = false then
    .error "TypeError: cannot read classList of null navMenu"
  else .ok (closeMobileMenu s)

/-- `handleKeyboardNavigation` (`script.js` lines 223-228) with all
elements present: Escape closes the menu when the nav menu has the
`active` class; every other key leaves the state unchanged. -/
def handleKeyboardNavigation (key : String) (s : MenuState) : MenuState :=
  if key = "Escape" ∧ s.navMenuActive = true then closeMobileMenu s else s

/-- `handleKeyboardNavigation` with the nav-menu lookup made explicit: the
short-circuit `e.key === 'Escape' && elements.navMenu.classList...` only
dereferences the nav menu once the key is Escape, and does so with no
null check. -/
def handleKeyboardNavigationBody (key : String) (navMenuPresent : Bool) (s : MenuState) :
    Except String MenuState :=
  if key = "Escape" then
    if navMenuPresent then .ok (if s.navMenuActive = true then closeMobileMenu s else s)
    else .error "TypeError: cannot read classList of null navMenu"
  else .ok s

/-- The outside-click listener registered by `setupEventListeners`
(`script.js` lines 267-273): a click lands inside neither the nav menu nor
the hamburger while the menu is active, so the menu is closed. -/
def handleOutsideClick (insideMenu insideHamburger : Bool) (s : MenuState) : MenuState :=
  if s.navMenuActive = true ∧ insideMenu = false ∧ insideHamburger = false then
    closeMobileMenu s
  else s

/-- The outside-click listener with the nav-menu lookup made explicit: its
condition reads `elements.navMenu.classList.contains('active')` first, on
every document click, with no null check, so a missing nav menu makes
every click throw; the hamburger is assumed present in the inner
handler. -/
def handleOutsideClickBody (navMenuPresent : Bool) (insideMenu insideHamburger : Bool)
    (s : MenuState) : Except String MenuState :=
  if navMenuPresent = false then
    .error "TypeError: cannot read classList of null navMenu"
  else .ok (handleOutsideClick insideMenu insideHamburger s)

/-- The observable outcome of one run of `smoothScrollToSection`
(`script.js` lines 112-131): whether default navigation was prevented, the
scroll destination passed to `window.scrollTo` (if any), and the menu
state afterwards. -/
structure SmoothScrollResult where
  defaultPrevented : Bool
  scrolledTo : Option Int
  menuAfter : MenuState
deriving DecidableEq, Repr

/-- The `targetId.startsWith('#')` test of `smoothScrollToSection`,
expressed on the string's character list. -/
def startsWithHash (href : String) : Bool :=
  match href.data with
  | [] => false
  | c :: _ => c = '#'

/-- `smoothScrollToSection` (`script.js` lines 112-131).
`e.preventDefault()` runs first, unconditionally.  When the href starts
with `#` and `document.querySelector` finds the target (modelled by an
association list from href to `offsetTop`), the window scrolls to
`target.offsetTop - elements.navbar.offsetHeight` and the mobile menu is
closed; otherwise nothing further happens. -/
def smoothScrollToSection (targets : List (String × Nat)) (navbarHeight : Nat)
    (href : String) (menu : MenuState) : SmoothScrollResult :=
  if startsWithHash href then
    match targets.lookup href with
    | some offsetTop =>
        { defaultPrevented := true,
          scrolledTo := some ((offsetTop : Int) - (navbarHeight : Int)),
          menuAfter := closeMobileMenu menu }
    | none => { defaultPrevented := true, scrolledTo := none, menuAfter := menu }
  else { defaultPrevented := true, scrolledTo := none, menuAfter := menu }

/-- `smoothScrollToSection` with the element lookups made explicit, in
source order: when the href starts with `#` and the target exists, line
119 dereferences `elements.navbar.offsetHeight` with no null check, and
line 128 calls `closeMobileMenu()` unconditionally, which dereferences the
hamburger and the nav menu (lines 67-68) with no null checks.  A thrown
TypeError aborts the handler; in the hamburger/nav-menu case the
`window.scrollTo` call has already been issued when the throw happens, and
the model reports only the error for such an aborted run. -/
def smoothScrollToSectionBody (navbarPresent hamburgerPresent navMenuPresent : Bool)
    (targets : List (String × Nat)) (navbarHeight : Nat) (href : String)
    (menu : MenuState) : Except String SmoothScrollResult :=
  if startsWithHash href then
    match targets.lookup href with
    | some offsetTop =>
        if navbarPresent = false then
          .error "TypeError: cannot read offsetHeight of null navbar"
        else
          match closeMobileMenuBody hamburgerPresent navMenuPresent menu with
          | .error e => .error e
          | .ok m2 =>
              .ok { defaultPrevented := true,
                    scrolledTo := some ((offsetTop : Int) - (navbarHeight : Int)),
                    menuAfter := m2 }
    | none => .ok { defaultPrevented := true, scrolledTo := none, menuAfter := menu }
  else .ok { defaultPrevented := true, scrolledTo := none, menuAfter := menu }

/-- The listener registrations performed by `setupEventListeners`
(`script.js` lines 233-274), given which optional elements are present:
the hamburger-click, scroll-top-click and form-submit registrations are
guarded by existence checks; the nav-link, scroll, anchor, keydown and
outside-click registrations are unconditional. -/
def setupEventListeners (hamburger scrollTopBtn contactForm : Bool) : List String :=
  (if hamburger then ["hamburger:click"] else []) ++
  ["navLinks:click"] ++
  ["window:scroll:navbar", "window:scroll:scrollTop"] ++
  (if scrollTopBtn then ["scrollTopBtn:click"] else []) ++
  (if contactForm then ["contactForm:submit"] else []) ++
  ["anchors:click", "document:keydown", "document:click-outside"]

/-- `updateCopyrightYear` (`script.js` lines 214-218): guarded by a
null check, so a missing year placeholder is a silent no-op. -/
def updateCopyrightYear (yearSpan : Option String) (year : Nat) :
    Except String (Option String) :=
  match yearSpan with
  | none => .ok none
  | some _ => .ok (some (toString year))

/-- The implicit agreement the menu code maintains: the nav menu's
`active` class tracks the hamburger's, `aria-expanded` is `"true"` exactly
when the menu is active, and body scroll is locked exactly when the menu
is active. -/
def menuConsistent (s : MenuState) : Prop :=
  s.navMenuActive = s.hamburgerActive ∧
  s.ariaExpanded = (if s.hamburgerActive then "true" else "false") ∧
  s.bodyOverflow = (if s.hamburgerActive then "hidden" else "")

/-- The state of the contact form's submit button. -/
structure ButtonState where
  innerHTML : String
  disabled : Bool
deriving DecidableEq, Repr

/-- The synchronous prefix of `handleFormSubmit` (`script.js` lines
155-174): it queries the submit button and immediately reads
`submitButton.innerHTML` with no null check, so a missing button throws a
TypeError right there — before the loading state is shown and before the
1000 ms timer is scheduled.  On success it shows the loading state,
disables the button and schedules the single 1000 ms timer. -/
def handleFormSubmitSync (btn : Option ButtonState) :
    Except String (ButtonState × List Nat) :=
  match btn with
  | none => .error "TypeError: cannot read innerHTML of null submitButton"
  | some _ =>
      .ok ({ innerHTML := "<i class=\"fas fa-spinner fa-spin\"></i> Sending...",
             disabled := true }, [1000])

/-- The 1000 ms timer callback of `handleFormSubmit`: shows the sent
message and schedules the 2000 ms restore timer. -/
def handleFormSubmitTimer1 (b : ButtonState) : ButtonState × List Nat :=
  ({ b with innerHTML := "<i class=\"fas fa-check\"></i> Message Sent!" }, [2000])

/-- The 2000 ms timer callback of `handleFormSubmit`: restores the
original label and re-enables the button. -/
def handleFormSubmitTimer2 (originalText : String) (_ : ButtonState) : ButtonState :=
  { innerHTML := originalText, disabled := false }

theorem debounce_foldl_burst (w : Nat) :
    ∀ (rest : List Call) (c : Call) (log : List FnCall),
    chainedFromB w c.t rest = true →
    rest.foldl (debounceStep w) (log, some (c.t + w, c.args)) =
      (log, some ((lastCall c rest).t + w, (lastCall c rest).args)) := by
  intro rest
  induction rest with
  | nil => intro c log _; rfl
  | cons c2 rest ih =>
      intro c log h
      simp only [chainedFromB, Bool.and_eq_true, decide_eq_true_eq] at h
      obtain ⟨⟨h1, h2⟩, h3⟩ := h
      simp only [List.foldl_cons]
      have hstep : debounceStep w (log, some (c.t + w, c.args)) c2 =
          (log, some (c2.t + w, c2.args)) := by
        simp only [debounceStep]
        rw [if_neg (by omega)]
      rw [hstep, ih c2 log h3]
      rfl

/-- C1: for every wait `w ≥ 0` and every burst of `N ≥ 1` invocations of
the debounced wrapper in which consecutive invocations are issued less
than `w` milliseconds apart, exactly one underlying call of `func` occurs
over the whole run, and it receives the arguments of the last invocation
of the burst (with an undefined `this`, as `later` performs a plain
call). -/
theorem debounce_burst_single_call (w : Nat) (c : Call) (rest : List Call)
    (h : chainedFromB w c.t rest = true) :
    debounceRun w (c :: rest) = [⟨none, (lastCall c rest).args⟩] := by
  unfold debounceRun
  simp only [List.foldl_cons]
  have hstep : debounceStep w ([], none) c = ([], some (c.t + w, c.args)) := rfl
  rw [hstep, debounce_foldl_burst w rest c [] h]
  rfl

/-- Witness for C1: a burst of three invocations of a wrapper debounced at
10 ms, issued at times 0, 5 and 9, produces exactly one underlying call,
with the arguments of the third invocation. -/
theorem debounce_burst_single_call_witness :
    chainedFromB 10 0 [⟨5, 8, [2]⟩, ⟨9, 9, [3]⟩] = true ∧
    debounceRun 10 [⟨0, 7, [1]⟩, ⟨5, 8, [2]⟩, ⟨9, 9, [3]⟩] = [⟨none, [3]⟩] := by
  refine ⟨by decide, ?_⟩
  simpa using debounce_burst_single_call 10 ⟨0, 7, [1]⟩ [⟨5, 8, [2]⟩, ⟨9, 9, [3]⟩] (by decide)

theorem throttle_foldl_eq (L : Nat) :
    ∀ (rest : List Call) (log : List FnCall) (tAcc : Nat),
    (rest.foldl (throttleStep L) (log, some (tAcc + L))).1 =
      log ++ (throttleAccepts L tAcc rest).map fnCallOf := by
  intro rest
  induction rest with
  | nil => intro log tAcc; simp [throttleAccepts]
  | cons c rest ih =>
      intro log tAcc
      simp only [List.foldl_cons]
      by_cases hc : c.t < tAcc + L
      · have hstep : throttleStep L (log, some (tAcc + L)) c = (log, some (tAcc + L)) := by
          simp only [throttleStep]
          rw [if_neg (by omega)]
        rw [hstep, ih log tAcc]
        simp [throttleAccepts, if_pos hc]
      · have hstep : throttleStep L (log, some (tAcc + L)) c =
            (log ++ [fnCallOf c], some (c.t + L)) := by
          simp only [throttleStep, fnCallOf]
          rw [if_pos (by omega)]
        rw [hstep, ih (log ++ [fnCallOf c]) c.t]
        simp [throttleAccepts, if_neg hc]

theorem throttleRun_eq_policy (L : Nat) (calls : List Call) :
    throttleRun L calls = (throttlePolicy L calls).map fnCallOf := by
  cases calls with
  | nil => rfl
  | cons c rest =>
      unfold throttleRun
      simp only [List.foldl_cons]
      have hstep : throttleStep L ([], none) c = ([fnCallOf c], some (c.t + L)) := rfl
      rw [hstep]
      have := throttle_foldl_eq L rest [fnCallOf c] c.t
      rw [this]
      simp [throttlePolicy]

/-- C2: the throttled wrapper realises exactly the cooldown policy stated
by the spec — the first invocation calls `func` immediately and
synchronously, every further invocation issued before `L` milliseconds
have elapsed since the accepted call is dropped (not queued), and the
first invocation issued once `L` milliseconds have elapsed calls `func`
immediately and starts a new cooldown window.  The underlying call
sequence of the code equals the accepted-invocation sequence of the
policy, argument for argument. -/
theorem throttle_cooldown_policy (L : Nat) (calls : List Call) :
    (throttleRun L calls).map FnCall.args = (throttlePolicy L calls).map Call.args := by
  rw [throttleRun_eq_policy]
  simp [List.map_map, fnCallOf, Function.comp]

theorem debounce_foldl_thisVal (w : Nat) :
    ∀ (calls : List Call) (log : List FnCall) (st : Option (Nat × List Nat)),
    (∀ e ∈ log, e.thisVal = none) →
    ∀ e ∈ (calls.foldl (debounceStep w) (log, st)).1, e.thisVal = none := by
  intro calls
  induction calls with
  | nil => intro log st hlog; exact hlog
  | cons c rest ih =>
      intro log st hlog
      simp only [List.foldl_cons]
      cases st with
      | none => exact ih log _ hlog
      | some db =>
          obtain ⟨d, b⟩ := db
          by_cases hd : d ≤ c.t
          · have hstep : debounceStep w (log, some (d, b)) c =
                (log ++ [⟨none, b⟩], some (c.t + w, c.args)) := by
              simp only [debounceStep]
              rw [if_pos hd]
            rw [hstep]
            refine ih _ _ ?_
            intro e he
            rcases List.mem_append.1 he with h1 | h2
            · exact hlog e h1
            · simp only [List.mem_singleton] at h2
              subst h2
              rfl
          · have hstep : debounceStep w (log, some (d, b)) c =
                (log, some (c.t + w, c.args)) := by
              simp only [debounceStep]
              rw [if_neg hd]
            rw [hstep]
            exact ih log _ hlog

theorem debounceRun_thisVal (w : Nat) (calls : List Call) :
    ∀ e ∈ debounceRun w calls, e.thisVal = none := by
  have h := debounce_foldl_thisVal w calls [] none (by simp)
  unfold debounceRun
  rcases hfold : calls.foldl (debounceStep w) ([], none) with ⟨log, st⟩
  rw [hfold] at h
  cases st with
  | none => exact h
  | some db =>
      obtain ⟨d, b⟩ := db
      intro e he
      rcases List.mem_append.1 he with h1 | h2
      · exact h e h1
      · simp only [List.mem_singleton] at h2
        subst h2
        rfl

/-- C3 counterexample: the debounced wrapper does not preserve the calling
context.  A single invocation with `this = 7` leads to an underlying call
whose `this` is undefined (`none`, not `some 7`), because the arrow
function `later` performs the plain call `func(...args)`. -/
theorem rate_limiter_context_counterexample :
    debounceRun 10 [⟨0, 7, [4]⟩] = [⟨none, [4]⟩] ∧ (none : Option Nat) ≠ some 7 := by
  decide

theorem debounce_fold_flush (w : Nat) :
    ∀ (rest : List Call) (c : Call) (log : List FnCall),
    (match rest.foldl (debounceStep w) (log, some (c.t + w, c.args)) with
     | (l, some (_, b)) => l ++ [⟨none, b⟩]
     | (l, none) => l) = log ++ debouncePolicy w (c :: rest) := by
  intro rest
  induction rest with
  | nil => intro c log; rfl
  | cons c2 rest ih =>
      intro c log
      simp only [List.foldl_cons]
      by_cases hc : c.t + w ≤ c2.t
      · have hstep : debounceStep w (log, some (c.t + w, c.args)) c2 =
            (log ++ [⟨none, c.args⟩], some (c2.t + w, c2.args)) := by
          simp only [debounceStep]
          rw [if_pos hc]
        rw [hstep, ih c2 (log ++ [(⟨none, c.args⟩ : FnCall)])]
        simp [debouncePolicy, hc]
      · have hstep : debounceStep w (log, some (c.t + w, c.args)) c2 =
            (log, some (c2.t + w, c2.args)) := by
          simp only [debounceStep]
          rw [if_neg hc]
        rw [hstep, ih c2 log]
        simp [debouncePolicy, hc]

theorem debounceRun_eq_policy (w : Nat) (calls : List Call) :
    debounceRun w calls = debouncePolicy w calls := by
  cases calls with
  | nil => rfl
  | cons c rest =>
      unfold debounceRun
      simp only [List.foldl_cons]
      have hstep : debounceStep w ([], none) c = ([], some (c.t + w, c.args)) := rfl
      rw [hstep]
      simpa using debounce_fold_flush w rest c []

/-- C3 amended: whenever the underlying `fn` is invoked by the throttled
wrapper it receives the arguments and the calling context of the most
recent wrapper invocation (the accepted one, via `func.apply(this, args)`);
the debounced wrapper's underlying calls realise exactly the spec's
debounce policy — every run, over any invocation sequence, fires each
surviving scheduled call with the arguments of the most recent invocation
(the one that scheduled it) — but always with an undefined calling
context, because `later` performs the plain call `func(...args)`. -/
theorem rate_limiter_calling_context (L w : Nat) (calls calls2 : List Call) :
    throttleRun L calls = (throttlePolicy L calls).map fnCallOf ∧
    debounceRun w calls2 = debouncePolicy w calls2 ∧
    ∀ e ∈ debounceRun w calls2, e.thisVal = none :=
  ⟨throttleRun_eq_policy L calls, debounceRun_eq_policy w calls2,
   debounceRun_thisVal w calls2⟩

/-- Witness for C3 amended: a throttled invocation at time 0 with context 5
produces an underlying call carrying `some 5`; a debounced pair of
invocations 3 ms apart under a 10 ms wait produces exactly the policy's
single underlying call, with the second (most recent) invocation's
arguments and context `none`. -/
theorem rate_limiter_calling_context_witness :
    throttleRun 100 [⟨0, 5, [9]⟩] = [⟨some 5, [9]⟩] ∧
    debounceRun 10 [⟨0, 4, [6]⟩, ⟨3, 5, [7]⟩] = [⟨none, [7]⟩] ∧
    (⟨none, [7]⟩ : FnCall) ∈ debounceRun 10 [⟨0, 4, [6]⟩, ⟨3, 5, [7]⟩] ∧
    (⟨none, [7]⟩ : FnCall).thisVal = none := by
  have h := rate_limiter_calling_context 100 10 [⟨0, 5, [9]⟩] [⟨0, 4, [6]⟩, ⟨3, 5, [7]⟩]
  refine ⟨h.1.trans (by decide), h.2.1.trans (by decide), by decide,
    h.2.2 ⟨none, [7]⟩ (by decide)⟩

theorem deliverEntry_revealed (b : Bool) : deliverEntry b revealedElem = revealedElem := by
  cases b <;> rfl

theorem foldl_deliver_revealed :
    ∀ evs : List Bool, evs.foldl (fun s b => deliverEntry b s) revealedElem = revealedElem := by
  intro evs
  induction evs with
  | nil => rfl
  | cons b evs ih =>
      simp only [List.foldl_cons, deliverEntry_revealed]
      exact ih

theorem foldl_deliver_binary :
    ∀ (evs : List Bool) (s : RevealElem), s = pendingElem ∨ s = revealedElem →
    (evs.foldl (fun s b => deliverEntry b s) s = pendingElem ∨
     evs.foldl (fun s b => deliverEntry b s) s = revealedElem) := by
  intro evs
  induction evs with
  | nil => intro s hs; exact hs
  | cons b evs ih =>
      intro s hs
      simp only [List.foldl_cons]
      rcases hs with h | h
      · subst h
        cases b
        · exact ih (deliverEntry false pendingElem) (Or.inl rfl)
        · exact ih (deliverEntry true pendingElem) (Or.inr rfl)
      · subst h
        rw [deliverEntry_revealed]
        exact ih revealedElem (Or.inr rfl)

/-- C4: each tracked element, initialized to the pending state, either
stays pending or reaches the revealed state — never anything else — so the
pending-to-revealed transition happens at most once; once revealed, the
element is unobserved and every further intersection event leaves its
styles exactly unchanged, so the transition is irreversible. -/
theorem reveal_at_most_once (evs more : List Bool) :
    (revealRun evs = pendingElem ∨ revealRun evs = revealedElem) ∧
    (revealRun evs = revealedElem → revealRun (evs ++ more) = revealedElem) ∧
    revealedElem.observed = false ∧
    (∀ b, deliverEntry b revealedElem = revealedElem) := by
  refine ⟨foldl_deliver_binary evs pendingElem (Or.inl rfl), ?_, rfl, deliverEntry_revealed⟩
  intro h
  unfold revealRun at h ⊢
  rw [List.foldl_append, h]
  exact foldl_deliver_revealed more

/-- Witness for C4: one intersecting event reveals the element, and later
events — scrolling out and back in — leave it revealed. -/
theorem reveal_at_most_once_witness :
    revealRun [true] = revealedElem ∧ revealRun ([true] ++ [false, true]) = revealedElem :=
  ⟨rfl, (reveal_at_most_once [true] [false, true]).2.1 rfl⟩

/-- C5 counterexample: the navbar is an expected element whose absence is
not tolerated — with `elements.navbar` null, a run of the throttled scroll
handler at offset 60 throws a TypeError instead of silently skipping the
feature. -/
theorem null_tolerance_counterexample :
    handleNavbarScrollBody none 60 =
      .error "TypeError: cannot read classList of null navbar" := rfl

/-- C5 amended: the defensive existence checks cover only the listener
registrations for the hamburger, scroll-top control and contact form, and
the year-placeholder update — so a missing contact form or year
placeholder is a fully silent no-op.  Every other absence reaches an
unguarded dereference and throws a TypeError: a missing navbar or
scroll-top control in the throttled scroll handlers; a missing nav menu in
the always-registered keydown handler on an Escape press (other keys are
saved by short-circuit evaluation) and in the always-registered
outside-click listener on every document click; and a missing hamburger in
`closeMobileMenu`, which an anchor click on an existing in-page target
reaches unconditionally (with all elements present that same path agrees
with the plain model). -/
theorem null_tolerance_amended (s : Nat) (m : MenuState) (h st cf : Bool) :
    updateCopyrightYear none 2026 = .ok none ∧
    (("hamburger:click" ∈ setupEventListeners h st cf) ↔ h = true) ∧
    (("scrollTopBtn:click" ∈ setupEventListeners h st cf) ↔ st = true) ∧
    (("contactForm:submit" ∈ setupEventListeners h st cf) ↔ cf = true) ∧
    handleNavbarScrollBody none s =
      .error "TypeError: cannot read classList of null navbar" ∧
    handleScrollTopBody none s =
      .error "TypeError: cannot read classList of null scrollTopBtn" ∧
    handleKeyboardNavigationBody "Escape" false m =
      .error "TypeError: cannot read classList of null navMenu" ∧
    (∀ k : String, k ≠ "Escape" → handleKeyboardNavigationBody k false m = .ok m) ∧
    (∀ b1 b2 : Bool, handleOutsideClickBody false b1 b2 m =
      .error "TypeError: cannot read classList of null navMenu") ∧
    (∀ nmP : Bool, closeMobileMenuBody false nmP m =
      .error "TypeError: cannot read classList of null hamburger") ∧
    (∀ (targets : List (String × Nat)) (nh : Nat) (href : String) (o : Nat),
      startsWithHash href = true → targets.lookup href = some o →
      smoothScrollToSectionBody true false true targets nh href m =
        .error "TypeError: cannot read classList of null hamburger") ∧
    (∀ (targets : List (String × Nat)) (nh : Nat) (href : String),
      smoothScrollToSectionBody true true true targets nh href m =
        .ok (smoothScrollToSection targets nh href m)) := by
  refine ⟨rfl, ?_, ?_, ?_, rfl, rfl, ?_, ?_, ?_, ?_, ?_, ?_⟩
  · cases h <;> cases st <;> cases cf <;> decide
  · cases h <;> cases st <;> cases cf <;> decide
  · cases h <;> cases st <;> cases cf <;> decide
  · simp [handleKeyboardNavigationBody]
  · intro k hk
    simp [handleKeyboardNavigationBody, hk]
  · intro b1 b2
    rfl
  · intro nmP
    rfl
  · intro targets nh href o hh hl
    simp [smoothScrollToSectionBody, hh, hl, closeMobileMenuBody]
  · intro targets nh href
    unfold smoothScrollToSectionBody smoothScrollToSection
    split
    · rcases targets.lookup href with _ | o <;> rfl
    · rfl

/-- Witness for C5 amended: a non-Escape key press with the nav menu
absent still succeeds without touching the menu state, and a click on an
anchor whose target exists throws on the missing hamburger. -/
theorem null_tolerance_amended_witness :
    ("q" : String) ≠ "Escape" ∧
    handleKeyboardNavigationBody "q" false ⟨false, false, "false", ""⟩ =
      .ok ⟨false, false, "false", ""⟩ ∧
    startsWithHash "#contact" = true ∧
    List.lookup "#contact" [("#contact", (800 : Nat))] = some 800 ∧
    smoothScrollToSectionBody true false true [("#contact", 800)] 64 "#contact"
      ⟨true, true, "true", "hidden"⟩ =
      .error "TypeError: cannot read classList of null hamburger" := by
  refine ⟨by decide, ?_, by decide, by decide, ?_⟩
  · exact (null_tolerance_amended 0 ⟨false, false, "false", ""⟩ true true
      true).2.2.2.2.2.2.2.1 "q" (by decide)
  · exact (null_tolerance_amended 0 ⟨true, true, "true", "hidden"⟩ true true
      true).2.2.2.2.2.2.2.2.2.2.1 [("#contact", 800)] 64 "#contact" 800
      (by decide) (by decide)

theorem mem_classAdd (cls : List String) (c : String) : c ∈ classAdd cls c := by
  unfold classAdd
  split
  · assumption
  · simp

theorem not_mem_classRemove (cls : List String) (c : String) : c ∉ classRemove cls c := by
  unfold classRemove
  intro hmem
  have := List.of_mem_filter hmem
  simp at this

theorem mem_navbarScrollUpdate (cls : List String) (s : Nat) :
    "scrolled" ∈ navbarScrollUpdate cls s ↔ 50 < s := by
  unfold navbarScrollUpdate
  split
  · simp_all [mem_classAdd]
  · simp_all [not_mem_classRemove]

theorem mem_scrollTopUpdate (cls : List String) (s : Nat) :
    "visible" ∈ scrollTopUpdate cls s ↔ 300 < s := by
  unfold scrollTopUpdate
  split
  · simp_all [mem_classAdd]
  · simp_all [not_mem_classRemove]

/-- C6: after any run of the throttled scroll handler bodies at offset `s`,
the navbar has the `scrolled` class iff `s > 50` and the scroll-top
control has the `visible` class iff `s > 300`; in particular a run at 60
adds `scrolled` and a later run at 0 removes it, and a run at 320 makes
the control visible while a later run at 250 hides it. -/
theorem scroll_threshold_classes (cls cls2 : List String) (s : Nat) :
    ("scrolled" ∈ navbarScrollUpdate cls s ↔ 50 < s) ∧
    ("visible" ∈ scrollTopUpdate cls2 s ↔ 300 < s) ∧
    "scrolled" ∈ navbarScrollUpdate cls 60 ∧
    "scrolled" ∉ navbarScrollUpdate (navbarScrollUpdate cls 60) 0 ∧
    "visible" ∈ scrollTopUpdate cls2 320 ∧
    "visible" ∉ scrollTopUpdate (scrollTopUpdate cls2 320) 250 := by
  refine ⟨mem_navbarScrollUpdate cls s, mem_scrollTopUpdate cls2 s, ?_, ?_, ?_, ?_⟩
  · exact (mem_navbarScrollUpdate cls 60).2 (by omega)
  · intro hmem
    exact absurd ((mem_navbarScrollUpdate _ 0).1 hmem) (by omega)
  · exact (mem_scrollTopUpdate cls2 320).2 (by omega)
  · intro hmem
    exact absurd ((mem_scrollTopUpdate _ 250).1 hmem) (by omega)

/-- C7: from a closed mobile menu, toggling sets `aria-expanded` to
`"true"` and locks body scroll; a subsequent Escape key press closes the
menu, resets `aria-expanded` to `"false"` and unlocks body scroll. -/
theorem menu_toggle_then_escape (s : MenuState)
    (h1 : s.hamburgerActive = false) (h2 : s.navMenuActive = false) :
    (toggleMobileMenu s).ariaExpanded = "true" ∧
    (toggleMobileMenu s).bodyOverflow = "hidden" ∧
    handleKeyboardNavigation "Escape" (toggleMobileMenu s) =
      closeMobileMenu (toggleMobileMenu s) ∧
    (handleKeyboardNavigation "Escape" (toggleMobileMenu s)).hamburgerActive = false ∧
    (handleKeyboardNavigation "Escape" (toggleMobileMenu s)).navMenuActive = false ∧
    (handleKeyboardNavigation "Escape" (toggleMobileMenu s)).ariaExpanded = "false" ∧
    (handleKeyboardNavigation "Escape" (toggleMobileMenu s)).bodyOverflow = "" := by
  simp [toggleMobileMenu, handleKeyboardNavigation, closeMobileMenu, h1, h2]

/-- Witness for C7: the fully closed concrete state. -/
theorem menu_toggle_then_escape_witness :
    (toggleMobileMenu ⟨false, false, "false", ""⟩).ariaExpanded = "true" ∧
    (toggleMobileMenu ⟨false, false, "false", ""⟩).bodyOverflow = "hidden" ∧
    (handleKeyboardNavigation "Escape"
      (toggleMobileMenu ⟨false, false, "false", ""⟩)).ariaExpanded = "false" ∧
    (handleKeyboardNavigation "Escape"
      (toggleMobileMenu ⟨false, false, "false", ""⟩)).bodyOverflow = "" := by
  have h := menu_toggle_then_escape ⟨false, false, "false", ""⟩ rfl rfl
  exact ⟨h.1, h.2.1, h.2.2.2.2.2.1, h.2.2.2.2.2.2⟩

/-- C8: a click on an anchor whose href starts with `#` and whose target
exists prevents default navigation, scrolls to the target's `offsetTop`
minus the navbar height, and closes the mobile menu; when the target does
not exist no scroll occurs and the menu state is unchanged (default is
still prevented, since `e.preventDefault()` runs first). -/
theorem anchor_click_scroll (targets : List (String × Nat)) (nh : Nat) (href : String)
    (menu : MenuState) (h : startsWithHash href = true) :
    (∀ o : Nat, targets.lookup href = some o →
      smoothScrollToSection targets nh href menu =
        { defaultPrevented := true, scrolledTo := some ((o : Int) - (nh : Int)),
          menuAfter := closeMobileMenu menu } ∧
      (smoothScrollToSection targets nh href menu).menuAfter.navMenuActive = false) ∧
    (targets.lookup href = none →
      (smoothScrollToSection targets nh href menu).scrolledTo = none ∧
      (smoothScrollToSection targets nh href menu).menuAfter = menu) := by
  constructor
  · intro o ho
    simp [smoothScrollToSection, h, ho, closeMobileMenu]
  · intro ho
    simp [smoothScrollToSection, h, ho]

/-- Witness for C8: clicking a link to `#about` (target at `offsetTop`
500, navbar 64px tall) from an open menu scrolls to 436 and closes the
menu; clicking a link to the missing `#blog` scrolls nowhere and leaves
the menu open. -/
theorem anchor_click_scroll_witness :
    startsWithHash "#about" = true ∧
    smoothScrollToSection [("#about", 500)] 64 "#about" ⟨true, true, "true", "hidden"⟩ =
      { defaultPrevented := true, scrolledTo := some 436,
        menuAfter := ⟨false, false, "false", ""⟩ } ∧
    (smoothScrollToSection [("#about", 500)] 64 "#blog" ⟨true, true, "true", "hidden"⟩).scrolledTo
      = none ∧
    (smoothScrollToSection [("#about", 500)] 64 "#blog" ⟨true, true, "true", "hidden"⟩).menuAfter
      = ⟨true, true, "true", "hidden"⟩ := by
  refine ⟨by decide, ?_, ?_, ?_⟩
  · have h := ((anchor_click_scroll [("#about", 500)] 64 "#about"
      ⟨true, true, "true", "hidden"⟩ (by decide)).1 500 (by decide)).1
    simpa using h
  · exact ((anchor_click_scroll [("#about", 500)] 64 "#blog"
      ⟨true, true, "true", "hidden"⟩ (by decide)).2 (by decide)).1
  · exact ((anchor_click_scroll [("#about", 500)] 64 "#blog"
      ⟨true, true, "true", "hidden"⟩ (by decide)).2 (by decide)).2

/-- C9 counterexample: with the submit button missing, the handler fails in
its synchronous prefix — the unguarded read of `submitButton.innerHTML` on
line 157 — so the first failing dereference is not inside the deferred
timer callback; the error surfaces before any timer is scheduled. -/
theorem form_submit_failure_counterexample :
    handleFormSubmitSync none =
      .error "TypeError: cannot read innerHTML of null submitButton" := rfl

/-- C9 amended: a missing submit button is a hard failure — the handler
throws rather than skipping the feature — but the first failing
dereference is the synchronous read of the button's `innerHTML`, before
the loading state is shown and before any timer is scheduled; with the
button present the handler shows the loading state, schedules the 1000 ms
timer, whose callback schedules the 2000 ms restore. -/
theorem form_submit_failure_location (b x : ButtonState) :
    handleFormSubmitSync none =
      .error "TypeError: cannot read innerHTML of null submitButton" ∧
    handleFormSubmitSync (some b) =
      .ok (⟨"<i class=\"fas fa-spinner fa-spin\"></i> Sending...", true⟩, [1000]) ∧
    (handleFormSubmitTimer1 x).2 = [2000] ∧
    handleFormSubmitTimer2 b.innerHTML x = ⟨b.innerHTML, false⟩ :=
  ⟨rfl, rfl, rfl, rfl⟩

theorem menuConsistent_close (s : MenuState) : menuConsistent (closeMobileMenu s) :=
  ⟨rfl, rfl, rfl⟩

/-- C10: the four pieces of mobile-menu state move together — every
operation that touches the menu (toggle, close, the Escape-key handler,
the outside-click handler and the anchor-click handler) preserves the
agreement between the two `active` classes, the `aria-expanded` attribute
and the body-overflow lock. -/
theorem menu_state_consistency (s : MenuState) (hc : menuConsistent s) :
    menuConsistent (toggleMobileMenu s) ∧
    menuConsistent (closeMobileMenu s) ∧
    (∀ k : String, menuConsistent (handleKeyboardNavigation k s)) ∧
    (∀ b1 b2 : Bool, menuConsistent (handleOutsideClick b1 b2 s)) ∧
    (∀ (targets : List (String × Nat)) (nh : Nat) (href : String),
      menuConsistent ((smoothScrollToSection targets nh href s).menuAfter)) := by
  obtain ⟨h1, h2, h3⟩ := hc
  refine ⟨⟨?_, rfl, rfl⟩, menuConsistent_close s, ?_, ?_, ?_⟩
  · show (!s.navMenuActive) = (!s.hamburgerActive)
    rw [h1]
  · intro k
    unfold handleKeyboardNavigation
    split
    · exact menuConsistent_close s
    · exact ⟨h1, h2, h3⟩
  · intro b1 b2
    unfold handleOutsideClick
    split
    · exact menuConsistent_close s
    · exact ⟨h1, h2, h3⟩
  · intro targets nh href
    unfold smoothScrollToSection
    split
    · rcases targets.lookup href with _ | o
      · exact ⟨h1, h2, h3⟩
      · exact menuConsistent_close s
    · exact ⟨h1, h2, h3⟩

/-- Witness for C10: the consistent closed state stays consistent after a
toggle. -/
theorem menu_state_consistency_witness :
    menuConsistent ⟨false, false, "false", ""⟩ ∧
    menuConsistent (toggleMobileMenu ⟨false, false, "false", ""⟩) :=
  ⟨⟨rfl, rfl, rfl⟩, (menu_state_consistency ⟨false, false, "false", ""⟩ ⟨rfl, rfl, rfl⟩).1⟩

end Portfolio
